import Mathlib

/-!
# Verification of the musicid-backend request-signing / response-normalization core

Shallow embedding of `src/server.js`:

* `JSValue` models the JavaScript values flowing through the server: the
  JSON-shaped provider reply plus the `undefined` values and thrown
  `TypeError`s that arise during field extraction.  JS numbers are modelled
  as exact rationals (`ℚ`) together with a separate `nan` constructor; the
  double-precision rounding and `Infinity` of JS are not modelled, and
  `ToPrimitive` coercion of arrays/objects in numeric context is modelled
  as `NaN`.
* property access `recv.k` on a `null`/`undefined` receiver throws, so the
  extraction code is embedded in `Except String`; optional chaining
  (`recv?.k`) is the total function `optChain`.
* `parseACRCloudResponse` is a line-by-line translation of the function of
  the same name (src/server.js lines 110–156).
* `stringToSign`, `prepareRequest` and `identifyHandler` embed the request
  preparation of the `/api/identify` route (lines 42–84); the HMAC-SHA1
  digest primitive is abstracted as a function parameter, and the raw file
  buffer / filename / MIME type appended to the form are not modelled
  (only the byte count, which is what the flat form fields use).
-/

/-- A JavaScript value as it occurs in the server: JSON data plus
`undefined` and `NaN` (which arise during extraction, never in the parsed
provider reply itself).  Object fields are an association list in source
order. -/
inductive JSValue where
  | undefined
  | null
  | bool (b : Bool)
  | num (q : ℚ)
  | nan
  | str (s : String)
  | arr (elems : List JSValue)
  | obj (fields : List (String × JSValue))

namespace JSValue

/-- First binding of key `k`, `undefined` when the key is missing. -/
def lookupField : List (String × JSValue) → String → JSValue
  | [], _ => .undefined
  | (k₀, v) :: rest, k => if k₀ = k then v else lookupField rest k

/-- JavaScript truthiness: `undefined`, `null`, `false`, `0`, `NaN` and the
empty string are falsy; every other value (including empty arrays and
empty objects) is truthy. -/
def truthy : JSValue → Bool
  | .undefined => false
  | .null => false
  | .bool b => b
  | .num q => decide ¬ q = 0
  | .nan => false
  | .str s => decide ¬ s = ""
  | .arr _ => true
  | .obj _ => true

/-- `true` for every value except `null` and `undefined` (the receivers on
which property access throws). -/
def notNullish : JSValue → Bool
  | .undefined => false
  | .null => false
  | _ => true

/-- Total property access, the meaning of the optional-chaining operator
`recv?.k`: `undefined` for nullish receivers, association-list lookup on
objects, `length` on arrays and strings, `undefined` on other primitives. -/
def optChain : JSValue → String → JSValue
  | .obj fs, k => lookupField fs k
  | .arr xs, k => if k = "length" then .num xs.length else .undefined
  | .str s, k => if k = "length" then .num s.length else .undefined
  | _, _ => .undefined

/-- Plain property access `recv.k`: a `TypeError` on `null`/`undefined`,
otherwise `optChain`. -/
def getProp (v : JSValue) (k : String) : Except String JSValue :=
  match v with
  | .undefined => .error ("TypeError: Cannot read properties of undefined (reading " ++ k ++ ")")
  | .null => .error ("TypeError: Cannot read properties of null (reading " ++ k ++ ")")
  | v => .ok (optChain v k)

/-- Total index access: array element (or `undefined` past the end),
one-character string for string receivers, property `"i"` on objects. -/
def pureIndex : JSValue → Nat → JSValue
  | .arr xs, i => xs.getD i .undefined
  | .str s, i =>
      match (s.data.drop i) with
      | c :: _ => .str (String.singleton c)
      | [] => .undefined
  | .obj fs, i => lookupField fs (toString i)
  | _, _ => .undefined

/-- Index access `recv[i]`: a `TypeError` on `null`/`undefined`, otherwise
`pureIndex`. -/
def getIndex (v : JSValue) (i : Nat) : Except String JSValue :=
  match v with
  | .undefined => .error "TypeError: Cannot read properties of undefined (reading index)"
  | .null => .error "TypeError: Cannot read properties of null (reading index)"
  | v => .ok (pureIndex v i)

/-- Decimal string → number, modelling `ToNumber` on strings: the empty
string is `0`, an optional sign followed by digits with an optional
fractional part parses exactly; exponent forms and whitespace trimming are
not modelled. -/
def parseDecimal (s : String) : Option ℚ :=
  match s.data with
  | [] => some 0
  | cs =>
    let neg : Bool := match cs with | '-' :: _ => true | _ => false
    let cs₁ := match cs with | '-' :: rest => rest | _ => cs
    let intPart := cs₁.takeWhile Char.isDigit
    let rest := cs₁.dropWhile Char.isDigit
    let natOfDigits : List Char → ℕ :=
      fun ds => ds.foldl (fun acc c => acc * 10 + (c.toNat - '0'.toNat)) 0
    let mag : Option ℚ :=
      match rest with
      | [] => if intPart.isEmpty then none else some (natOfDigits intPart)
      | '.' :: frac =>
        if frac.all Char.isDigit && !(intPart.isEmpty && frac.isEmpty) then
          some ((natOfDigits intPart : ℚ) + (natOfDigits frac : ℚ) / (10 ^ frac.length : ℚ))
        else none
      | _ => none
    mag.map (fun q => if neg then -q else q)

/-- `ToNumber` coercion as used by `*`, `/`, `>` and `Math.round`/`floor`:
`none` stands for `NaN`.  Arrays and objects (JS would coerce through
`ToPrimitive`) are modelled as `NaN`. -/
def toNumber : JSValue → Option ℚ
  | .undefined => none
  | .null => some 0
  | .bool b => some (if b then 1 else 0)
  | .num q => some q
  | .nan => none
  | .str s => parseDecimal s
  | .arr _ => none
  | .obj _ => none

/-- JS `a || b`: `a` when truthy, else `b`. -/
def jsOr (a b : JSValue) : JSValue := if truthy a then a else b

/-- JS strict equality of a value against a number literal (`v === c`). -/
def strictEqNum (v : JSValue) (c : ℚ) : Bool :=
  match v with
  | .num q => decide (q = c)
  | _ => false

/-- JS `v > c` against a number literal: `ToNumber` then compare, false on
`NaN`. -/
def jsGtNum (v : JSValue) (c : ℚ) : Bool :=
  match toNumber v with
  | some q => decide (c < q)
  | none => false

/-- JS multiplication (numeric result or `NaN`). -/
def jsMul (a b : JSValue) : JSValue :=
  match toNumber a, toNumber b with
  | some x, some y => .num (x * y)
  | _, _ => .nan

/-- JS division; division by zero (JS `Infinity`) is modelled as `NaN`,
never exercised here since the only divisor in the source is the literal
`1000`. -/
def jsDiv (a b : JSValue) : JSValue :=
  match toNumber a, toNumber b with
  | some x, some y => if y = 0 then .nan else .num (x / y)
  | _, _ => .nan

/-- `Math.round`: `⌊x + 1/2⌋` (JS rounds half toward +∞), `NaN` on
non-numbers. -/
def mathRound (v : JSValue) : JSValue :=
  match toNumber v with
  | some q => .num ((Rat.floor (q + 1/2) : ℤ) : ℚ)
  | none => .nan

/-- `Math.floor`, `NaN` on non-numbers. -/
def mathFloor (v : JSValue) : JSValue :=
  match toNumber v with
  | some q => .num ((Rat.floor q : ℤ) : ℚ)
  | none => .nan

/-- String interpolation of a value (`ToString`).  Integers print exactly;
non-integer rationals, arrays and objects are simplified renderings (no
claim exercises them). -/
def jsToString : JSValue → String
  | .str s => s
  | .num q => if q.den = 1 then toString q.num else toString q.num ++ "/" ++ toString q.den
  | .nan => "NaN"
  | .bool b => if b then "true" else "false"
  | .null => "null"
  | .undefined => "undefined"
  | .arr _ => ""
  | .obj _ => "[object Object]"

/-- `recv.substring(0, 4)` — the receiver is known truthy at the call site;
on a non-string receiver the property is `undefined` and the call throws a
`TypeError`. -/
def callSubstring4 (v : JSValue) : Except String JSValue :=
  match v with
  | .str s => .ok (.str (s.take 4))
  | _ => .error "TypeError: substring is not a function"

end JSValue

namespace MusicId

open JSValue

/-! ## Response normalizer (src/server.js lines 110–156)

`parseACRCloudResponse(data)` is translated bind-for-access: every plain
property access goes through `getProp`/`getIndex` (which throw on nullish
receivers exactly as JS does), optional chaining through `optChain`, and
the twelve fields of the returned `song` object literal are evaluated in
source order. -/

/-- Guard of the success branch, line 111:
`data && data.status && data.status.code === 0 && data.metadata &&
data.metadata.music && data.metadata.music.length > 0`, with the
short-circuiting of `&&` made explicit (a falsy link stops evaluation, so
the accesses inside never throw). -/
def successGuard (data : JSValue) : Except String Bool := do
  if truthy data then
    let status ← getProp data "status"
    if truthy status then
      let code ← getProp status "code"
      if strictEqNum code 0 then
        let metadata ← getProp data "metadata"
        if truthy metadata then
          let music ← getProp metadata "music"
          if truthy music then
            let len ← getProp music "length"
            return jsGtNum len 0
          else return false
        else return false
      else return false
    else return false
  else return false

/-- Guard of the error branches, lines 131/137/143:
`data && data.status && data.status.code === c`. -/
def codeGuard (data : JSValue) (c : ℚ) : Except String Bool := do
  if truthy data then
    let status ← getProp data "status"
    if truthy status then
      let code ← getProp status "code"
      return strictEqNum code c
    else return false
  else return false

/-- Line 117: `music.title || 'Unknown Title'`. -/
def titleE (music : JSValue) : Except String JSValue := do
  let t ← getProp music "title"
  return jsOr t (.str "Unknown Title")

/-- Line 118: `music.artists && music.artists.length > 0 ?
music.artists[0].name : 'Unknown Artist'`. -/
def artistE (music : JSValue) : Except String JSValue := do
  let artists ← getProp music "artists"
  if truthy artists then
    let len ← getProp artists "length"
    if jsGtNum len 0 then
      let a0 ← getIndex artists 0
      getProp a0 "name"
    else return .str "Unknown Artist"
  else return .str "Unknown Artist"

/-- Line 119: `music.album ? music.album.name : 'Unknown Album'`
(the second read of `music.album` is the same pure lookup). -/
def albumE (music : JSValue) : Except String JSValue := do
  let album ← getProp music "album"
  if truthy album then getProp album "name"
  else return .str "Unknown Album"

/-- Line 120: `music.release_date ? music.release_date.substring(0, 4) :
'Unknown'`. -/
def yearE (music : JSValue) : Except String JSValue := do
  let rd ← getProp music "release_date"
  if truthy rd then callSubstring4 rd
  else return .str "Unknown"

/-- Line 121: `Math.round(music.score * 100) || 95`. -/
def confidenceE (music : JSValue) : Except String JSValue := do
  let score ← getProp music "score"
  return jsOr (mathRound (jsMul score (.num 100))) (.num 95)

/-- Line 122: `music.duration_ms ? Math.floor(music.duration_ms / 1000) :
null`. -/
def durationE (music : JSValue) : Except String JSValue := do
  let d ← getProp music "duration_ms"
  if truthy d then return mathFloor (jsDiv d (.num 1000))
  else return .null

/-- Line 123:
`music.external_metadata?.spotify?.track?.external_urls?.spotify`. -/
def spotifyUrlE (music : JSValue) : Except String JSValue := do
  let em ← getProp music "external_metadata"
  return optChain (optChain (optChain (optChain em "spotify") "track") "external_urls") "spotify"

/-- Line 124: `music.external_metadata?.youtube?.vid ?
`https://www.youtube.com/watch?v=...` : null` (the template re-reads the
vid without optional chaining; the truthiness guard makes that read safe
and equal to the guarded value). -/
def youtubeUrlE (music : JSValue) : Except String JSValue := do
  let em ← getProp music "external_metadata"
  let vid := optChain (optChain em "youtube") "vid"
  if truthy vid then return .str ("https://www.youtube.com/watch?v=" ++ jsToString vid)
  else return .null

/-- Line 125: `music.external_metadata?.apple_music?.url`. -/
def appleUrlE (music : JSValue) : Except String JSValue := do
  let em ← getProp music "external_metadata"
  return optChain (optChain em "apple_music") "url"

/-- Line 126: `music.album?.artwork_url_500 || music.album?.artwork_url`. -/
def coverArtE (music : JSValue) : Except String JSValue := do
  let album ← getProp music "album"
  return jsOr (optChain album "artwork_url_500") (optChain album "artwork_url")

/-- Line 127: `music.external_metadata?.spotify?.track?.preview_url`. -/
def previewUrlE (music : JSValue) : Except String JSValue := do
  let em ← getProp music "external_metadata"
  return optChain (optChain (optChain em "spotify") "track") "preview_url"

/-- Lines 114–130: the success object literal, fields evaluated in source
order. -/
def buildSong (music : JSValue) : Except String JSValue := do
  let title ← titleE music
  let artist ← artistE music
  let album ← albumE music
  let year ← yearE music
  let confidence ← confidenceE music
  let duration ← durationE music
  let spotifyUrl ← spotifyUrlE music
  let youtubeUrl ← youtubeUrlE music
  let appleUrl ← appleUrlE music
  let coverArt ← coverArtE music
  let previewUrl ← previewUrlE music
  return .obj [("success", .bool true),
    ("song", .obj [
      ("title", title),
      ("artist", artist),
      ("album", album),
      ("year", year),
      ("confidence", confidence),
      ("duration", duration),
      ("spotify_url", spotifyUrl),
      ("youtube_url", youtubeUrl),
      ("apple_url", appleUrl),
      ("cover_art", coverArt),
      ("preview_url", previewUrl),
      ("isReal", .bool true)])]

/-- Lines 132–136. -/
def notFoundResult : JSValue :=
  .obj [("success", .bool false), ("error", .str "No music found in database"), ("code", .num 1001)]

/-- Lines 138–142. -/
def invalidKeyResult : JSValue :=
  .obj [("success", .bool false), ("error", .str "Invalid access key"), ("code", .num 3001)]

/-- Lines 144–148. -/
def rateLimitResult : JSValue :=
  .obj [("success", .bool false), ("error", .str "Rate limit exceeded"), ("code", .num 3003)]

/-- Lines 150–154: the catch-all carries the original reply in `data`. -/
def unknownFormatResult (data : JSValue) : JSValue :=
  .obj [("success", .bool false), ("error", .str "Unknown response format"), ("data", data)]

/-- `parseACRCloudResponse` (src/server.js lines 110–156). -/
def parseACRCloudResponse (data : JSValue) : Except String JSValue := do
  let isSuccess ← successGuard data
  if isSuccess then
    let metadata ← getProp data "metadata"
    let musicList ← getProp metadata "music"
    let music ← getIndex musicList 0
    buildSong music
  else
    let is1001 ← codeGuard data 1001
    if is1001 then return notFoundResult
    else
      let is3001 ← codeGuard data 3001
      if is3001 then return invalidKeyResult
      else
        let is3003 ← codeGuard data 3003
        if is3003 then return rateLimitResult
        else return (unknownFormatResult data)

end MusicId

namespace MusicId

open JSValue

/-! ## Request signing and the `/api/identify` handler (src/server.js lines 27–84)

The handler is embedded up to the point where the outbound request has
been assembled (the network call and the response path are the external
collaborators the spec scopes out).  `Math.floor(Date.now() / 1000)` is
`nowMs / 1000` on naturals; the HMAC-SHA1/base64 primitive
(`generateSignature`, lines 35–39) is an opaque parameter `hmac` taking
the string to sign and the secret. -/

/-- `acrcloudConfig.endpoint` (line 31). -/
def acrcloudEndpoint : String := "/v1/identify"

/-- Line 60: `` `POST\n${endpoint}\n${access_key}\naudio\n1\n${timestamp}` ``. -/
def stringToSign (endpoint accessKey : String) (timestamp : ℕ) : String :=
  "POST\n" ++ endpoint ++ "\n" ++ accessKey ++ "\naudio\n1\n" ++ toString timestamp

/-- The flat fields appended to the outbound multipart body
(lines 69–74); the raw sample buffer itself (line 65) is not modelled. -/
structure ACRForm where
  sample_bytes : String
  access_key : String
  data_type : String
  signature_version : String
  signature : String
  timestamp : String

/-- Outcome of the request-preparation phase: the canonical string that
was signed, together with the outgoing form fields. -/
structure PreparedRequest where
  signedString : String
  form : ACRForm

/-- Lines 59–74: capture the timestamp once, build the canonical string,
sign it, and assemble the form fields. -/
def prepareRequest (hmac : String → String → String)
    (accessKey accessSecret : String) (fileSize nowMs : ℕ) : PreparedRequest :=
  let timestamp := nowMs / 1000
  let toSign := stringToSign acrcloudEndpoint accessKey timestamp
  let signature := hmac toSign accessSecret
  { signedString := toSign
    form :=
      { sample_bytes := toString fileSize
        access_key := accessKey
        data_type := "audio"
        signature_version := "1"
        signature := signature
        timestamp := toString timestamp } }

/-- How far the handler gets before the outbound call. -/
inductive HandlerResult where
  | noFile
  | missingCredentials
  | prepared (r : PreparedRequest)

/-- Truthiness of an environment variable (`process.env.X` is a string or
`undefined`; the empty string is falsy). -/
def envTruthy : Option String → Bool
  | none => false
  | some s => decide ¬ s = ""

/-- Lines 42–74 of the `/api/identify` route: `if (!req.file)` → 400;
`if (!access_key || !access_secret)` → 500 configuration error; otherwise
prepare the signed request.  The uploaded file is represented by its byte
count (`req.file.size`), the only attribute the flat form fields use. -/
def identifyHandler (hmac : String → String → String)
    (accessKey accessSecret : Option String) (file : Option ℕ) (nowMs : ℕ) :
    HandlerResult :=
  match file with
  | none => .noFile
  | some fileSize =>
    if !envTruthy accessKey || !envTruthy accessSecret then .missingCredentials
    else .prepared (prepareRequest hmac (accessKey.getD "") (accessSecret.getD "") fileSize nowMs)

/-! ## Pure mirrors of the extraction code

The `...E` extractors above live in `Except` because plain JS property
access throws on nullish receivers.  At the points where the source
guards accesses by truthiness, the access is total; these pure mirrors
state what each branch computes, and the bridging lemmas below prove the
`Except` code equal to them under the corresponding safety conditions. -/

/-- Pure reading of the success-branch guard (line 111). -/
def successCond (data : JSValue) : Bool :=
  truthy data &&
  truthy (optChain data "status") &&
  strictEqNum (optChain (optChain data "status") "code") 0 &&
  truthy (optChain data "metadata") &&
  truthy (optChain (optChain data "metadata") "music") &&
  jsGtNum (optChain (optChain (optChain data "metadata") "music") "length") 0

/-- Pure reading of `data && data.status && data.status.code === c`. -/
def codeCond (data : JSValue) (c : ℚ) : Bool :=
  truthy data &&
  truthy (optChain data "status") &&
  strictEqNum (optChain (optChain data "status") "code") c

/-- The first candidate match, `data.metadata.music[0]` (line 112). -/
def matchOf (data : JSValue) : JSValue :=
  pureIndex (optChain (optChain data "metadata") "music") 0

/-- The result of the `else` chain (lines 131–155) as a pure value. -/
def elseResult (data : JSValue) : JSValue :=
  if codeCond data 1001 then notFoundResult
  else if codeCond data 3001 then invalidKeyResult
  else if codeCond data 3003 then rateLimitResult
  else unknownFormatResult data

/-- Whether the artist ternary takes its first branch
(`music.artists && music.artists.length > 0`). -/
def artistBranch (music : JSValue) : Bool :=
  truthy (optChain music "artists") &&
  jsGtNum (optChain (optChain music "artists") "length") 0

/-- Pure mirror of `titleE`. -/
def titleP (music : JSValue) : JSValue :=
  jsOr (optChain music "title") (.str "Unknown Title")

/-- Pure mirror of `artistE`. -/
def artistP (music : JSValue) : JSValue :=
  if artistBranch music then optChain (pureIndex (optChain music "artists") 0) "name"
  else .str "Unknown Artist"

/-- Pure mirror of `albumE`. -/
def albumP (music : JSValue) : JSValue :=
  if truthy (optChain music "album") then optChain (optChain music "album") "name"
  else .str "Unknown Album"

/-- Pure four-character prefix (the receiver is a string whenever the
source call does not throw). -/
def substring4P : JSValue → JSValue
  | .str s => .str (s.take 4)
  | _ => .undefined

/-- Pure mirror of `yearE`. -/
def yearP (music : JSValue) : JSValue :=
  if truthy (optChain music "release_date") then substring4P (optChain music "release_date")
  else .str "Unknown"

/-- Pure mirror of `confidenceE`. -/
def confidenceP (music : JSValue) : JSValue :=
  jsOr (mathRound (jsMul (optChain music "score") (.num 100))) (.num 95)

/-- Pure mirror of `durationE`. -/
def durationP (music : JSValue) : JSValue :=
  if truthy (optChain music "duration_ms") then mathFloor (jsDiv (optChain music "duration_ms") (.num 1000))
  else .null

/-- Pure mirror of `spotifyUrlE`. -/
def spotifyUrlP (music : JSValue) : JSValue :=
  optChain (optChain (optChain (optChain (optChain music "external_metadata") "spotify") "track") "external_urls") "spotify"

/-- The guarded video id `music.external_metadata?.youtube?.vid`. -/
def vidOf (music : JSValue) : JSValue :=
  optChain (optChain (optChain music "external_metadata") "youtube") "vid"

/-- Pure mirror of `youtubeUrlE`. -/
def youtubeUrlP (music : JSValue) : JSValue :=
  if truthy (vidOf music) then .str ("https://www.youtube.com/watch?v=" ++ jsToString (vidOf music))
  else .null

/-- Pure mirror of `appleUrlE`. -/
def appleUrlP (music : JSValue) : JSValue :=
  optChain (optChain (optChain music "external_metadata") "apple_music") "url"

/-- Pure mirror of `coverArtE`. -/
def coverArtP (music : JSValue) : JSValue :=
  jsOr (optChain (optChain music "album") "artwork_url_500") (optChain (optChain music "album") "artwork_url")

/-- Pure mirror of `previewUrlE`. -/
def previewUrlP (music : JSValue) : JSValue :=
  optChain (optChain (optChain (optChain music "external_metadata") "spotify") "track") "preview_url"

/-- Whether a value is a string. -/
def isStr : JSValue → Bool
  | .str _ => true
  | _ => false

/-- The conditions under which extracting from the first match cannot
throw: the match itself is not nullish, the artists element consulted (if
any) is not nullish, and `release_date` is a string whenever truthy. -/
def safeMatch (music : JSValue) : Bool :=
  notNullish music &&
  (!(artistBranch music) || notNullish (pureIndex (optChain music "artists") 0)) &&
  (!(truthy (optChain music "release_date")) || isStr (optChain music "release_date"))

/-- The success object (lines 114–130) as a pure value of the match. -/
def songObjOf (music : JSValue) : JSValue :=
  .obj [("success", .bool true),
    ("song", .obj [
      ("title", titleP music),
      ("artist", artistP music),
      ("album", albumP music),
      ("year", yearP music),
      ("confidence", confidenceP music),
      ("duration", durationP music),
      ("spotify_url", spotifyUrlP music),
      ("youtube_url", youtubeUrlP music),
      ("apple_url", appleUrlP music),
      ("cover_art", coverArtP music),
      ("preview_url", previewUrlP music),
      ("isReal", .bool true)])]

/-- Field `k` of the `song` object of a normalizer outcome (used to state
the field-level claims). -/
def resultSongField (r : Except String JSValue) (k : String) : JSValue :=
  match r with
  | .ok v => optChain (optChain v "song") k
  | .error _ => .undefined

end MusicId

namespace MusicId

/-! ## Bridging lemmas: the `Except` code equals its pure mirror wherever
the source guards make accesses total -/

open JSValue

theorem exceptBind_ok {α β ε : Type} (a : α) (f : α → Except ε β) :
    (Except.ok a : Except ε α) >>= f = f a := rfl

theorem exceptBind_err {α β ε : Type} (e : ε) (f : α → Except ε β) :
    (Except.error e : Except ε α) >>= f = .error e := rfl

theorem exceptMap_ok {α β ε : Type} (f : α → β) (a : α) :
    f <$> (Except.ok a : Except ε α) = .ok (f a) := rfl

theorem exceptMap_err {α β ε : Type} (f : α → β) (e : ε) :
    f <$> (Except.error e : Except ε α) = .error e := rfl

theorem exceptPure {α ε : Type} (a : α) : (pure a : Except ε α) = .ok a := rfl

theorem truthy_notNullish {v : JSValue} (h : truthy v = true) : notNullish v = true := by
  cases v <;> simp_all [truthy, notNullish]

theorem getProp_eq_ok {v : JSValue} (h : notNullish v = true) (k : String) :
    getProp v k = .ok (optChain v k) := by
  cases v <;> simp_all [notNullish, getProp]

theorem getIndex_eq_ok {v : JSValue} (h : notNullish v = true) (i : ℕ) :
    getIndex v i = .ok (pureIndex v i) := by
  cases v <;> simp_all [notNullish, getIndex]

theorem successGuard_eq (data : JSValue) : successGuard data = .ok (successCond data) := by
  by_cases hd : truthy data
  · have h1 := getProp_eq_ok (truthy_notNullish hd) "status"
    by_cases hs : truthy (optChain data "status")
    · have h2 := getProp_eq_ok (truthy_notNullish hs) "code"
      by_cases hc : strictEqNum (optChain (optChain data "status") "code") 0 = true
      · have h3 := getProp_eq_ok (truthy_notNullish hd) "metadata"
        by_cases hm : truthy (optChain data "metadata")
        · have h4 := getProp_eq_ok (truthy_notNullish hm) "music"
          by_cases hmu : truthy (optChain (optChain data "metadata") "music")
          · have h5 := getProp_eq_ok (truthy_notNullish hmu) "length"
            simp [successGuard, successCond, hd, hs, hc, hm, hmu, h1, h2, h3, h4, h5,
              exceptBind_ok, exceptMap_ok, exceptPure]
          · simp [successGuard, successCond, hd, hs, hc, hm, hmu, h1, h2, h3, h4,
              exceptBind_ok, exceptMap_ok, exceptPure]
        · simp [successGuard, successCond, hd, hs, hc, hm, h1, h2, h3,
            exceptBind_ok, exceptMap_ok, exceptPure]
      · simp [successGuard, successCond, hd, hs, hc, h1, h2, exceptBind_ok, exceptMap_ok, exceptPure]
    · simp [successGuard, successCond, hd, hs, h1, exceptBind_ok, exceptMap_ok, exceptPure]
  · simp [successGuard, successCond, hd, exceptPure]

theorem codeGuard_eq (data : JSValue) (c : ℚ) : codeGuard data c = .ok (codeCond data c) := by
  by_cases hd : truthy data
  · have h1 := getProp_eq_ok (truthy_notNullish hd) "status"
    by_cases hs : truthy (optChain data "status")
    · have h2 := getProp_eq_ok (truthy_notNullish hs) "code"
      simp [codeGuard, codeCond, hd, hs, h1, h2, exceptBind_ok, exceptMap_ok, exceptPure]
    · simp [codeGuard, codeCond, hd, hs, h1, exceptBind_ok, exceptMap_ok, exceptPure]
  · simp [codeGuard, codeCond, hd, exceptPure]

theorem parse_else {data : JSValue} (h : successCond data = false) :
    parseACRCloudResponse data = .ok (elseResult data) := by
  simp only [parseACRCloudResponse, successGuard_eq, codeGuard_eq, h, exceptBind_ok,
    Bool.false_eq_true, if_false, elseResult]
  by_cases h1 : codeCond data 1001 <;> by_cases h2 : codeCond data 3001 <;>
    by_cases h3 : codeCond data 3003 <;> simp [h1, h2, h3, exceptBind_ok, exceptPure]

end MusicId

namespace MusicId

open JSValue

theorem titleE_eq {m : JSValue} (h : notNullish m = true) : titleE m = .ok (titleP m) := by
  simp [titleE, titleP, getProp_eq_ok h, exceptBind_ok, exceptMap_ok, exceptPure]

theorem artistE_eq {m : JSValue} (h : notNullish m = true)
    (ha : artistBranch m = false ∨ notNullish (pureIndex (optChain m "artists") 0) = true) :
    artistE m = .ok (artistP m) := by
  have hart := getProp_eq_ok h "artists"
  by_cases h1 : truthy (optChain m "artists")
  · have hlen := getProp_eq_ok (truthy_notNullish h1) "length"
    by_cases h2 : jsGtNum (optChain (optChain m "artists") "length") 0 = true
    · have hbr : artistBranch m = true := by simp [artistBranch, h1, h2]
      have ha0 : notNullish (pureIndex (optChain m "artists") 0) = true := by
        rcases ha with ha | ha
        · rw [hbr] at ha; exact absurd ha (by simp)
        · exact ha
      have hidx := getIndex_eq_ok (truthy_notNullish h1) 0
      have hname := getProp_eq_ok ha0 "name"
      simp [artistE, artistP, hbr, hart, hlen, hidx, hname, h1, h2,
        exceptBind_ok, exceptMap_ok, exceptPure]
    · have hbr : artistBranch m = false := by simp [artistBranch, h2]
      simp [artistE, artistP, hbr, hart, hlen, h1, h2, exceptBind_ok, exceptMap_ok, exceptPure]
  · have hbr : artistBranch m = false := by simp [artistBranch, h1]
    simp [artistE, artistP, hbr, hart, h1, exceptBind_ok, exceptMap_ok, exceptPure]

theorem albumE_eq {m : JSValue} (h : notNullish m = true) : albumE m = .ok (albumP m) := by
  have halb := getProp_eq_ok h "album"
  by_cases h1 : truthy (optChain m "album")
  · have hname := getProp_eq_ok (truthy_notNullish h1) "name"
    simp [albumE, albumP, halb, hname, h1, exceptBind_ok, exceptMap_ok, exceptPure]
  · simp [albumE, albumP, halb, h1, exceptBind_ok, exceptMap_ok, exceptPure]

theorem yearE_eq {m : JSValue} (h : notNullish m = true)
    (hy : truthy (optChain m "release_date") = false ∨ isStr (optChain m "release_date") = true) :
    yearE m = .ok (yearP m) := by
  have hrd := getProp_eq_ok h "release_date"
  by_cases h1 : truthy (optChain m "release_date")
  · have hs : isStr (optChain m "release_date") = true := by
      rcases hy with hy | hy
      · rw [h1] at hy; exact absurd hy (by simp)
      · exact hy
    obtain ⟨s, hstr⟩ : ∃ s, optChain m "release_date" = .str s := by
      cases hval : optChain m "release_date" <;> simp_all [isStr]
    simp [yearE, yearP, hrd, hstr, h1, hstr ▸ h1, callSubstring4, substring4P,
      exceptBind_ok, exceptMap_ok, exceptPure]
  · simp [yearE, yearP, hrd, h1, exceptBind_ok, exceptMap_ok, exceptPure]

theorem confidenceE_eq {m : JSValue} (h : notNullish m = true) :
    confidenceE m = .ok (confidenceP m) := by
  simp [confidenceE, confidenceP, getProp_eq_ok h, exceptBind_ok, exceptMap_ok, exceptPure]

theorem durationE_eq {m : JSValue} (h : notNullish m = true) :
    durationE m = .ok (durationP m) := by
  have hd := getProp_eq_ok h "duration_ms"
  by_cases h1 : truthy (optChain m "duration_ms") <;>
    simp [durationE, durationP, hd, h1, exceptBind_ok, exceptMap_ok, exceptPure]

theorem spotifyUrlE_eq {m : JSValue} (h : notNullish m = true) :
    spotifyUrlE m = .ok (spotifyUrlP m) := by
  simp [spotifyUrlE, spotifyUrlP, getProp_eq_ok h, exceptBind_ok, exceptMap_ok, exceptPure]

theorem youtubeUrlE_eq {m : JSValue} (h : notNullish m = true) :
    youtubeUrlE m = .ok (youtubeUrlP m) := by
  simp only [youtubeUrlE, youtubeUrlP, vidOf, getProp_eq_ok h, exceptBind_ok, exceptPure]
  split <;> rfl

theorem appleUrlE_eq {m : JSValue} (h : notNullish m = true) :
    appleUrlE m = .ok (appleUrlP m) := by
  simp [appleUrlE, appleUrlP, getProp_eq_ok h, exceptBind_ok, exceptMap_ok, exceptPure]

theorem coverArtE_eq {m : JSValue} (h : notNullish m = true) :
    coverArtE m = .ok (coverArtP m) := by
  simp [coverArtE, coverArtP, getProp_eq_ok h, exceptBind_ok, exceptMap_ok, exceptPure]

theorem previewUrlE_eq {m : JSValue} (h : notNullish m = true) :
    previewUrlE m = .ok (previewUrlP m) := by
  simp [previewUrlE, previewUrlP, getProp_eq_ok h, exceptBind_ok, exceptMap_ok, exceptPure]

end MusicId

namespace MusicId

open JSValue

theorem safeMatch_spec {m : JSValue} (h : safeMatch m = true) :
    notNullish m = true ∧
    (artistBranch m = false ∨ notNullish (pureIndex (optChain m "artists") 0) = true) ∧
    (truthy (optChain m "release_date") = false ∨ isStr (optChain m "release_date") = true) := by
  simp only [safeMatch, Bool.and_eq_true, Bool.or_eq_true, Bool.not_eq_true'] at h
  tauto

theorem buildSong_eq {m : JSValue} (h : safeMatch m = true) :
    buildSong m = .ok (songObjOf m) := by
  obtain ⟨h1, h2, h3⟩ := safeMatch_spec h
  simp [buildSong, songObjOf, titleE_eq h1, artistE_eq h1 h2, albumE_eq h1, yearE_eq h1 h3,
    confidenceE_eq h1, durationE_eq h1, spotifyUrlE_eq h1, youtubeUrlE_eq h1, appleUrlE_eq h1,
    coverArtE_eq h1, previewUrlE_eq h1, exceptBind_ok, exceptPure]

theorem successCond_spec {data : JSValue} (h : successCond data = true) :
    truthy data = true ∧
    truthy (optChain data "metadata") = true ∧
    truthy (optChain (optChain data "metadata") "music") = true := by
  simp only [successCond, Bool.and_eq_true] at h
  tauto

theorem parse_success {data : JSValue} (h : successCond data = true) :
    parseACRCloudResponse data = buildSong (matchOf data) := by
  obtain ⟨h1, h2, h3⟩ := successCond_spec h
  simp [parseACRCloudResponse, successGuard_eq, h, matchOf,
    getProp_eq_ok (truthy_notNullish h1), getProp_eq_ok (truthy_notNullish h2),
    getIndex_eq_ok (truthy_notNullish h3), exceptBind_ok, exceptPure]

theorem exceptBind_eq_ok {α β ε : Type} {x : Except ε α} {f : α → Except ε β} {r : β} :
    x >>= f = .ok r ↔ ∃ a, x = .ok a ∧ f a = .ok r := by
  cases x <;> simp [exceptBind_ok, exceptBind_err]

theorem buildSong_shape {m : JSValue} {r : JSValue} (h : buildSong m = .ok r) :
    ∃ t ar al y c d sp yt ap cv pv, r = .obj [("success", .bool true),
      ("song", .obj [
        ("title", t), ("artist", ar), ("album", al), ("year", y),
        ("confidence", c), ("duration", d), ("spotify_url", sp), ("youtube_url", yt),
        ("apple_url", ap), ("cover_art", cv), ("preview_url", pv), ("isReal", .bool true)])] := by
  simp only [buildSong, exceptBind_eq_ok, exceptPure] at h
  obtain ⟨t, _, ar, _, al, _, y, _, c, _, d, _, sp, _, yt, _, ap, _, cv, _, pv, _, hr⟩ := h
  exact ⟨t, ar, al, y, c, d, sp, yt, ap, cv, pv, by simp_all [Except.ok.injEq]⟩

end MusicId

namespace MusicId

open JSValue

/-! ## Claim theorems -/

/-- The canonical string is the newline-join of its six components. -/
theorem stringToSign_intercalate (endpoint accessKey : String) (timestamp : ℕ) :
    stringToSign endpoint accessKey timestamp =
      String.intercalate "\n" ["POST", endpoint, accessKey, "audio", "1", toString timestamp] := by
  simp [stringToSign, String.intercalate, String.intercalate.go, String.append_assoc]

/-- C2: for every access key id, endpoint path and timestamp, the string
digested by the signer is exactly the newline-joined sequence method,
path, key id, `"audio"`, `"1"`, timestamp; at the fixed literal input
method `POST`, path `/v1/identify`, key `abc123`, timestamp `1700000000`
it is the exact literal string. -/
theorem c2_theorem :
    (∀ (endpoint accessKey : String) (timestamp : ℕ),
      stringToSign endpoint accessKey timestamp =
        String.intercalate "\n" ["POST", endpoint, accessKey, "audio", "1", toString timestamp]) ∧
    stringToSign "/v1/identify" "abc123" 1700000000 =
      "POST\n/v1/identify\nabc123\naudio\n1\n1700000000" :=
  ⟨stringToSign_intercalate, rfl⟩

/-- C8: whenever the handler produces a prepared request, the timestamp was
captured once: the canonical string it signed embeds the same value `t`
that is transmitted as the decimal `timestamp` form field, namely
`nowMs / 1000`. -/
theorem c8_theorem (hmac : String → String → String) (accessKey accessSecret : Option String)
    (file : Option ℕ) (nowMs : ℕ) (r : PreparedRequest)
    (h : identifyHandler hmac accessKey accessSecret file nowMs = .prepared r) :
    ∃ t : ℕ, r.signedString = stringToSign acrcloudEndpoint (accessKey.getD "") t ∧
      r.form.timestamp = toString t ∧ t = nowMs / 1000 := by
  cases file with
  | none => simp [identifyHandler] at h
  | some fileSize =>
    by_cases hc : (!envTruthy accessKey || !envTruthy accessSecret) = true
    · simp [identifyHandler, hc] at h
    · simp only [identifyHandler, hc, Bool.false_eq_true, if_false, HandlerResult.prepared.injEq] at h
      subst h
      exact ⟨nowMs / 1000, rfl, rfl, rfl⟩

/-- Witness for C8 at a concrete input: key `key`, secret `sec`, a 42-byte
file, clock at 1700000000123 ms. -/
theorem c8_witness :
    ∃ t : ℕ, (prepareRequest (fun s k => s ++ k) "key" "sec" 42 1700000000123).signedString =
        stringToSign acrcloudEndpoint ((some "key").getD "") t ∧
      (prepareRequest (fun s k => s ++ k) "key" "sec" 42 1700000000123).form.timestamp = toString t ∧
      t = 1700000000123 / 1000 :=
  c8_theorem (fun s k => s ++ k) (some "key") (some "sec") (some 42) 1700000000123
    (prepareRequest (fun s k => s ++ k) "key" "sec" 42 1700000000123) rfl

/-- C9 counterexample: a request carrying no audio file and no credentials
fails with the no-file error, not with the configuration error the claim
requires for every request with missing credentials. -/
theorem c9_counterexample :
    identifyHandler (fun _ _ => "") none none none 0 = HandlerResult.noFile ∧
      HandlerResult.noFile ≠ HandlerResult.missingCredentials :=
  ⟨rfl, by simp⟩

/-- C9 (amended): for every request carrying an audio file in which the
access key or the shared secret is empty or missing, the handler fails
with the configuration error; and for every such request, with or without
a file, no prepared request is ever produced, so the signer never runs
with an empty key. -/
theorem c9_theorem (hmac : String → String → String) (accessKey accessSecret : Option String)
    (file : Option ℕ) (nowMs : ℕ)
    (h : envTruthy accessKey = false ∨ envTruthy accessSecret = false) :
    (∀ fileSize : ℕ, file = some fileSize →
      identifyHandler hmac accessKey accessSecret file nowMs = .missingCredentials) ∧
    (∀ r : PreparedRequest, identifyHandler hmac accessKey accessSecret file nowMs ≠ .prepared r) := by
  have hcond : (!envTruthy accessKey || !envTruthy accessSecret) = true := by
    rcases h with h | h <;> simp [h]
  constructor
  · intro fileSize hf
    subst hf
    simp [identifyHandler, hcond]
  · intro r
    cases file <;> simp [identifyHandler, hcond]

/-- Witness for C9 at a concrete input: a 7-byte file with an empty access
key yields the configuration error. -/
theorem c9_witness :
    identifyHandler (fun _ _ => "sig") (some "") (some "secret") (some 7) 5 =
      HandlerResult.missingCredentials :=
  (c9_theorem (fun _ _ => "sig") (some "") (some "secret") (some 7) 5 (Or.inl rfl)).1 7 rfl

end MusicId

namespace MusicId

open JSValue

/-- Under the success guard and a throw-free first match, the normalizer
returns the success object built from that match. -/
theorem parse_ok_songObj {data : JSValue} (h1 : successCond data = true)
    (h2 : safeMatch (matchOf data) = true) :
    parseACRCloudResponse data = .ok (songObjOf (matchOf data)) :=
  (parse_success h1).trans (buildSong_eq h2)

/-- Under the success guard and a throw-free first match, field `k` of the
returned song record is field `k` of the pure success object. -/
theorem songField_eq {data : JSValue} (h1 : successCond data = true)
    (h2 : safeMatch (matchOf data) = true) (k : String) :
    resultSongField (parseACRCloudResponse data) k =
      optChain (optChain (songObjOf (matchOf data)) "song") k := by
  rw [parse_ok_songObj h1 h2]
  rfl

/-- C1 counterexample: a reply with `status.code = 0` and the non-empty
music list `[null]` makes the normalizer throw a `TypeError` instead of
emitting the Success outcome the claim requires. -/
theorem c1_counterexample :
    successCond (.obj [("status", .obj [("code", .num 0)]),
        ("metadata", .obj [("music", .arr [.null])])]) = true ∧
    parseACRCloudResponse (.obj [("status", .obj [("code", .num 0)]),
        ("metadata", .obj [("music", .arr [.null])])]) =
      .error "TypeError: Cannot read properties of null (reading title)" :=
  ⟨by with_unfolding_all rfl, by with_unfolding_all rfl⟩

/-- C1 (amended): the decision order is as stated, with the success case
conditional on field extraction not throwing: if `status.code = 0` and
`metadata.music` is non-empty then, provided the first music element is
extraction-safe, the normalizer emits the Success record; else `1001`
emits NotFound, else `3001` InvalidCredentials, else `3003` RateLimited,
otherwise UnknownFormat carrying the original reply unchanged (in
particular `status.code = 0` with an empty music list falls through to
UnknownFormat). -/
theorem c1_theorem (data : JSValue) :
    (successCond data = true → safeMatch (matchOf data) = true →
      parseACRCloudResponse data = .ok (songObjOf (matchOf data))) ∧
    (successCond data = false → codeCond data 1001 = true →
      parseACRCloudResponse data = .ok notFoundResult) ∧
    (successCond data = false → codeCond data 1001 = false → codeCond data 3001 = true →
      parseACRCloudResponse data = .ok invalidKeyResult) ∧
    (successCond data = false → codeCond data 1001 = false → codeCond data 3001 = false →
      codeCond data 3003 = true → parseACRCloudResponse data = .ok rateLimitResult) ∧
    (successCond data = false → codeCond data 1001 = false → codeCond data 3001 = false →
      codeCond data 3003 = false → parseACRCloudResponse data = .ok (unknownFormatResult data)) := by
  refine ⟨fun h1 h2 => parse_ok_songObj h1 h2, ?_, ?_, ?_, ?_⟩
  · intro h h1
    rw [parse_else h, elseResult, h1]
    simp
  · intro h h1 h2
    rw [parse_else h, elseResult, h1, h2]
    simp
  · intro h h1 h2 h3
    rw [parse_else h, elseResult, h1, h2, h3]
    simp
  · intro h h1 h2 h3
    rw [parse_else h, elseResult, h1, h2, h3]
    simp

/-- Witness for C1 at a concrete input: `status.code = 0` with an empty
music list falls through every branch to UnknownFormat carrying the
original reply. -/
theorem c1_witness :
    parseACRCloudResponse (.obj [("status", .obj [("code", .num 0)]),
        ("metadata", .obj [("music", .arr [])])]) =
      .ok (unknownFormatResult (.obj [("status", .obj [("code", .num 0)]),
        ("metadata", .obj [("music", .arr [])])])) :=
  (c1_theorem (.obj [("status", .obj [("code", .num 0)]),
      ("metadata", .obj [("music", .arr [])])])).2.2.2.2
    (by with_unfolding_all rfl) (by with_unfolding_all rfl)
    (by with_unfolding_all rfl) (by with_unfolding_all rfl)

/-- C4 counterexample: a reply whose first match has the artists list
`[null]` (an absent-name artists entry the claim says must not raise)
makes the normalizer throw a `TypeError`. -/
theorem c4_counterexample :
    parseACRCloudResponse (.obj [("status", .obj [("code", .num 0)]),
        ("metadata", .obj [("music", .arr [.obj [("artists", .arr [.null])]])])]) =
      .error "TypeError: Cannot read properties of null (reading name)" := by
  with_unfolding_all rfl

/-- C4 (amended): the normalizer never raises outside the success branch,
and never raises inside it provided the first music element is not
nullish, the consulted artists entry is not nullish, and `release_date`
is a string whenever truthy; in particular replies whose `status`,
`metadata`, `album` or `external_metadata` are absent or null never
raise. -/
theorem c4_theorem (data : JSValue) :
    (successCond data = false → ∃ r, parseACRCloudResponse data = .ok r) ∧
    (successCond data = true → safeMatch (matchOf data) = true →
      ∃ r, parseACRCloudResponse data = .ok r) := by
  constructor
  · intro h
    exact ⟨elseResult data, parse_else h⟩
  · intro h1 h2
    exact ⟨songObjOf (matchOf data), parse_ok_songObj h1 h2⟩

/-- Witness for C4 at a concrete input: a success reply whose match has
`album` and `external_metadata` both null is normalized without raising. -/
theorem c4_witness :
    ∃ r, parseACRCloudResponse (.obj [("status", .obj [("code", .num 0)]),
        ("metadata", .obj [("music",
          .arr [.obj [("album", .null), ("external_metadata", .null)]])])]) = .ok r :=
  (c4_theorem (.obj [("status", .obj [("code", .num 0)]),
      ("metadata", .obj [("music",
        .arr [.obj [("album", .null), ("external_metadata", .null)]])])])).2
    (by with_unfolding_all rfl) (by with_unfolding_all rfl)

end MusicId

namespace MusicId

open JSValue

/-- C10: every outcome the normalizer returns carries a boolean `success`
field that is true exactly when the success branch was taken, and every
success record carries `isReal = true` alongside the song fields. -/
theorem c10_theorem (data : JSValue) (r : JSValue)
    (h : parseACRCloudResponse data = .ok r) :
    (optChain r "success" = .bool true ↔ successCond data = true) ∧
    (successCond data = true → optChain (optChain r "song") "isReal" = .bool true) := by
  by_cases hb : successCond data = true
  · rw [parse_success hb] at h
    obtain ⟨t, ar, al, y, c, d, sp, yt, ap, cv, pv, hr⟩ := buildSong_shape h
    subst hr
    exact ⟨by simp [hb, optChain, lookupField], fun _ => rfl⟩
  · have hb' : successCond data = false := by simpa using hb
    rw [parse_else hb'] at h
    have hr : elseResult data = r := by simpa using h
    subst hr
    constructor
    · unfold elseResult
      split_ifs <;>
        simp [hb', notFoundResult, invalidKeyResult, rateLimitResult, unknownFormatResult,
          optChain, lookupField]
    · intro hc
      exact absurd hc hb

/-- Witness for C10 at a concrete success reply. -/
theorem c10_witness :
    (optChain (songObjOf (matchOf (.obj [("status", .obj [("code", .num 0)]),
        ("metadata", .obj [("music", .arr [.obj [("title", .str "x")]])])]))) "success" =
      .bool true) ∧
    (optChain (optChain (songObjOf (matchOf (.obj [("status", .obj [("code", .num 0)]),
        ("metadata", .obj [("music", .arr [.obj [("title", .str "x")]])])]))) "song") "isReal" =
      .bool true) := by
  have h := c10_theorem (.obj [("status", .obj [("code", .num 0)]),
      ("metadata", .obj [("music", .arr [.obj [("title", .str "x")]])])])
    (songObjOf (matchOf (.obj [("status", .obj [("code", .num 0)]),
      ("metadata", .obj [("music", .arr [.obj [("title", .str "x")]])])])))
    (parse_ok_songObj (by with_unfolding_all rfl) (by with_unfolding_all rfl))
  exact ⟨h.1.mpr (by with_unfolding_all rfl), h.2 (by with_unfolding_all rfl)⟩

end MusicId

namespace MusicId

open JSValue

/-- C3 counterexample: in a Success outcome whose match has no
external-metadata block, `spotify_url`, `apple_url` and `preview_url` are
`undefined` (the field is omitted when serialized), not `null` as the
claim states. -/
theorem c3_counterexample :
    resultSongField (parseACRCloudResponse (.obj [("status", .obj [("code", .num 0)]),
        ("metadata", .obj [("music", .arr [.obj [("title", .str "T")]])])])) "spotify_url" =
      .undefined ∧
    resultSongField (parseACRCloudResponse (.obj [("status", .obj [("code", .num 0)]),
        ("metadata", .obj [("music", .arr [.obj [("title", .str "T")]])])])) "apple_url" =
      .undefined ∧
    resultSongField (parseACRCloudResponse (.obj [("status", .obj [("code", .num 0)]),
        ("metadata", .obj [("music", .arr [.obj [("title", .str "T")]])])])) "preview_url" =
      .undefined ∧
    JSValue.undefined ≠ JSValue.null :=
  ⟨by with_unfolding_all rfl, by with_unfolding_all rfl, by with_unfolding_all rfl, by simp⟩

/-- C3 (amended): in every Success outcome the `spotify_url`, `apple_url`
and `preview_url` fields equal the corresponding optional-chain reads, so
an absent link anywhere in the path yields `undefined` (not an error and
not `null`); `youtube_url` is the fixed watch-URL template around the
video id when one is present and truthy, and `null` otherwise. -/
theorem c3_theorem (data : JSValue) (h1 : successCond data = true)
    (h2 : safeMatch (matchOf data) = true) :
    resultSongField (parseACRCloudResponse data) "spotify_url" = spotifyUrlP (matchOf data) ∧
    resultSongField (parseACRCloudResponse data) "apple_url" = appleUrlP (matchOf data) ∧
    resultSongField (parseACRCloudResponse data) "preview_url" = previewUrlP (matchOf data) ∧
    (notNullish (optChain (matchOf data) "external_metadata") = false →
      resultSongField (parseACRCloudResponse data) "spotify_url" = .undefined ∧
      resultSongField (parseACRCloudResponse data) "apple_url" = .undefined ∧
      resultSongField (parseACRCloudResponse data) "preview_url" = .undefined) ∧
    (∀ s : String, vidOf (matchOf data) = .str s → ¬ s = "" →
      resultSongField (parseACRCloudResponse data) "youtube_url" =
        .str ("https://www.youtube.com/watch?v=" ++ s)) ∧
    (truthy (vidOf (matchOf data)) = false →
      resultSongField (parseACRCloudResponse data) "youtube_url" = .null) := by
  refine ⟨songField_eq h1 h2 "spotify_url", songField_eq h1 h2 "apple_url",
    songField_eq h1 h2 "preview_url", fun hm => ?_, fun s hv hs => ?_, fun hv => ?_⟩
  · have hem : optChain (matchOf data) "external_metadata" = .undefined ∨
        optChain (matchOf data) "external_metadata" = .null := by
      cases hval : optChain (matchOf data) "external_metadata" <;> simp_all [notNullish]
    refine ⟨?_, ?_, ?_⟩
    · rw [songField_eq h1 h2 "spotify_url"]
      show spotifyUrlP (matchOf data) = _
      simp only [spotifyUrlP]
      rcases hem with hem | hem <;> rw [hem] <;> rfl
    · rw [songField_eq h1 h2 "apple_url"]
      show appleUrlP (matchOf data) = _
      simp only [appleUrlP]
      rcases hem with hem | hem <;> rw [hem] <;> rfl
    · rw [songField_eq h1 h2 "preview_url"]
      show previewUrlP (matchOf data) = _
      simp only [previewUrlP]
      rcases hem with hem | hem <;> rw [hem] <;> rfl
  · rw [songField_eq h1 h2 "youtube_url"]
    show youtubeUrlP (matchOf data) = _
    simp [youtubeUrlP, hv, truthy, hs, jsToString]
  · rw [songField_eq h1 h2 "youtube_url"]
    show youtubeUrlP (matchOf data) = _
    simp [youtubeUrlP, hv]

/-- Witness for C3 at a concrete input: a match carrying only
`external_metadata.youtube.vid = "abc"` yields the synthesized watch URL. -/
theorem c3_witness :
    resultSongField (parseACRCloudResponse (.obj [("status", .obj [("code", .num 0)]),
        ("metadata", .obj [("music", .arr [.obj [("external_metadata",
          .obj [("youtube", .obj [("vid", .str "abc")])])]])])])) "youtube_url" =
      .str "https://www.youtube.com/watch?v=abc" :=
  (c3_theorem (.obj [("status", .obj [("code", .num 0)]),
      ("metadata", .obj [("music", .arr [.obj [("external_metadata",
        .obj [("youtube", .obj [("vid", .str "abc")])])]])])])
    (by with_unfolding_all rfl) (by with_unfolding_all rfl)).2.2.2.2.1 "abc"
    (by with_unfolding_all rfl) (by simp)

end MusicId

namespace MusicId

open JSValue

/-- C5: in every Success outcome, `confidence` is `round(score * 100)`
(JS half-up rounding) except that an absent or non-numeric score, or one
whose rounding is zero, falls back to 95. -/
theorem c5_theorem (data : JSValue) (h1 : successCond data = true)
    (h2 : safeMatch (matchOf data) = true) :
    (toNumber (optChain (matchOf data) "score") = none →
      resultSongField (parseACRCloudResponse data) "confidence" = .num 95) ∧
    (∀ q : ℚ, toNumber (optChain (matchOf data) "score") = some q →
      Rat.floor (q * 100 + 1/2) = 0 →
      resultSongField (parseACRCloudResponse data) "confidence" = .num 95) ∧
    (∀ q : ℚ, toNumber (optChain (matchOf data) "score") = some q →
      ¬ Rat.floor (q * 100 + 1/2) = 0 →
      resultSongField (parseACRCloudResponse data) "confidence" =
        .num ((Rat.floor (q * 100 + 1/2) : ℤ) : ℚ)) := by
  refine ⟨fun hs => ?_, fun q hs hf => ?_, fun q hs hf => ?_⟩
  · rw [songField_eq h1 h2 "confidence"]
    show confidenceP (matchOf data) = _
    simp only [confidenceP, jsMul]
    rw [hs]
    rfl
  · rw [songField_eq h1 h2 "confidence"]
    show confidenceP (matchOf data) = _
    simp only [confidenceP, jsMul]
    rw [hs]
    simp only [one_div] at hf
    simp [toNumber, mathRound, hf, jsOr, truthy, Int.cast_eq_zero]
  · rw [songField_eq h1 h2 "confidence"]
    show confidenceP (matchOf data) = _
    simp only [confidenceP, jsMul]
    rw [hs]
    simp only [one_div] at hf
    simp [toNumber, mathRound, jsOr, truthy, hf, Int.cast_eq_zero]

/-- Witness for C5 at a concrete input: score `0.97` yields confidence
`97`. -/
theorem c5_witness :
    resultSongField (parseACRCloudResponse (.obj [("status", .obj [("code", .num 0)]),
        ("metadata", .obj [("music", .arr [.obj [("score", .num (97/100))]])])])) "confidence" =
      .num 97 := by
  have h := (c5_theorem (.obj [("status", .obj [("code", .num 0)]),
      ("metadata", .obj [("music", .arr [.obj [("score", .num (97/100))]])])])
    (by with_unfolding_all rfl) (by with_unfolding_all rfl)).2.2 (97/100)
    (by with_unfolding_all rfl) (by with_unfolding_all decide)
  have e : ((Rat.floor ((97/100 : ℚ) * 100 + 1/2) : ℤ) : ℚ) = 97 := by
    with_unfolding_all decide
  rw [e] at h
  exact h

end MusicId

namespace MusicId

open JSValue

/-- C6 counterexample: when an artists entry is present but has no `name`,
the `artist` field is `undefined`, not the `"Unknown Artist"` placeholder
the claim requires for that case. -/
theorem c6_counterexample :
    resultSongField (parseACRCloudResponse (.obj [("status", .obj [("code", .num 0)]),
        ("metadata", .obj [("music", .arr [.obj [("artists", .arr [.obj []])]])])])) "artist" =
      .undefined ∧
    JSValue.undefined ≠ JSValue.str "Unknown Artist" :=
  ⟨by with_unfolding_all rfl, by simp⟩

/-- C6 (amended): `title` defaults to `"Unknown Title"` when omitted;
`artist` is `artists[0].name` whenever `artists` is truthy and non-empty
(which is `undefined` when that entry has no name) and defaults to
`"Unknown Artist"` only when `artists` is absent or empty; `album`
defaults to `"Unknown Album"` when omitted; `year` is the first four
characters of `release_date`, defaulting to `"Unknown"` when omitted. -/
theorem c6_theorem (data : JSValue) (h1 : successCond data = true)
    (h2 : safeMatch (matchOf data) = true) :
    (optChain (matchOf data) "title" = .undefined →
      resultSongField (parseACRCloudResponse data) "title" = .str "Unknown Title") ∧
    (artistBranch (matchOf data) = false →
      resultSongField (parseACRCloudResponse data) "artist" = .str "Unknown Artist") ∧
    (artistBranch (matchOf data) = true →
      resultSongField (parseACRCloudResponse data) "artist" =
        optChain (pureIndex (optChain (matchOf data) "artists") 0) "name") ∧
    (optChain (matchOf data) "album" = .undefined →
      resultSongField (parseACRCloudResponse data) "album" = .str "Unknown Album") ∧
    (optChain (matchOf data) "release_date" = .undefined →
      resultSongField (parseACRCloudResponse data) "year" = .str "Unknown") ∧
    (∀ s : String, optChain (matchOf data) "release_date" = .str s → ¬ s = "" →
      resultSongField (parseACRCloudResponse data) "year" = .str (s.take 4)) := by
  refine ⟨fun ht => ?_, fun hb => ?_, fun hb => ?_, fun ha => ?_, fun hr => ?_,
    fun s hr hs => ?_⟩
  · rw [songField_eq h1 h2 "title"]
    show titleP (matchOf data) = _
    simp [titleP, jsOr, ht, truthy]
  · rw [songField_eq h1 h2 "artist"]
    show artistP (matchOf data) = _
    simp [artistP, hb]
  · rw [songField_eq h1 h2 "artist"]
    show artistP (matchOf data) = _
    simp [artistP, hb]
  · rw [songField_eq h1 h2 "album"]
    show albumP (matchOf data) = _
    simp [albumP, ha, truthy]
  · rw [songField_eq h1 h2 "year"]
    show yearP (matchOf data) = _
    simp [yearP, hr, truthy]
  · rw [songField_eq h1 h2 "year"]
    show yearP (matchOf data) = _
    simp [yearP, hr, truthy, hs, substring4P]

/-- Witness for C6 at a concrete input: a match with only a release date
gets artist `"Unknown Artist"` and year `"1969"`. -/
theorem c6_witness :
    resultSongField (parseACRCloudResponse (.obj [("status", .obj [("code", .num 0)]),
        ("metadata", .obj [("music",
          .arr [.obj [("release_date", .str "1969-09-26")]])])])) "artist" =
      .str "Unknown Artist" ∧
    resultSongField (parseACRCloudResponse (.obj [("status", .obj [("code", .num 0)]),
        ("metadata", .obj [("music",
          .arr [.obj [("release_date", .str "1969-09-26")]])])])) "year" = .str "1969" := by
  have h := c6_theorem (.obj [("status", .obj [("code", .num 0)]),
      ("metadata", .obj [("music", .arr [.obj [("release_date", .str "1969-09-26")]])])])
    (by with_unfolding_all rfl) (by with_unfolding_all rfl)
  exact ⟨h.2.1 (by with_unfolding_all rfl),
    h.2.2.2.2.2 "1969-09-26" (by with_unfolding_all rfl) (by simp)⟩

/-- C7 counterexample: a match with `duration_ms = 0` (present) yields
`duration = null`, not `floor(0 / 1000) = 0` as the claim requires for
every present `duration_ms`. -/
theorem c7_counterexample :
    resultSongField (parseACRCloudResponse (.obj [("status", .obj [("code", .num 0)]),
        ("metadata", .obj [("music", .arr [.obj [("duration_ms", .num 0)]])])])) "duration" =
      .null ∧
    JSValue.null ≠ JSValue.num 0 :=
  ⟨by with_unfolding_all rfl, by simp⟩

/-- C7 (amended): in every Success outcome, `duration` is
`floor(duration_ms / 1000)` whenever `duration_ms` is present and
non-zero, and `null` otherwise — including when `duration_ms` is present
but zero. -/
theorem c7_theorem (data : JSValue) (h1 : successCond data = true)
    (h2 : safeMatch (matchOf data) = true) :
    (∀ q : ℚ, optChain (matchOf data) "duration_ms" = .num q → ¬ q = 0 →
      resultSongField (parseACRCloudResponse data) "duration" =
        .num ((Rat.floor (q / 1000) : ℤ) : ℚ)) ∧
    (optChain (matchOf data) "duration_ms" = .num 0 ∨
        optChain (matchOf data) "duration_ms" = .undefined →
      resultSongField (parseACRCloudResponse data) "duration" = .null) := by
  constructor
  · intro q hd hq
    rw [songField_eq h1 h2 "duration"]
    show durationP (matchOf data) = _
    have h1000 : ¬ (1000 : ℚ) = 0 := by norm_num
    simp [durationP, hd, truthy, hq, jsDiv, toNumber, mathFloor, h1000]
  · intro hd
    rw [songField_eq h1 h2 "duration"]
    show durationP (matchOf data) = _
    rcases hd with hd | hd <;> simp [durationP, hd, truthy]

/-- Witness for C7 at a concrete input: `duration_ms = 222000` yields
`duration = 222`. -/
theorem c7_witness :
    resultSongField (parseACRCloudResponse (.obj [("status", .obj [("code", .num 0)]),
        ("metadata", .obj [("music", .arr [.obj [("duration_ms", .num 222000)]])])])) "duration" =
      .num 222 := by
  have h := (c7_theorem (.obj [("status", .obj [("code", .num 0)]),
      ("metadata", .obj [("music", .arr [.obj [("duration_ms", .num 222000)]])])])
    (by with_unfolding_all rfl) (by with_unfolding_all rfl)).1 222000
    (by with_unfolding_all rfl) (by norm_num)
  have e : ((Rat.floor ((222000 : ℚ) / 1000) : ℤ) : ℚ) = 222 := by
    with_unfolding_all decide
  rw [e] at h
  exact h

end MusicId
